import Mathlib

/-!
Verification of the scoring entry point `KerasML/score.py`.

The script exposes two hooks for a model-serving host:

  def init():
      global model
      model_path = Model.get_model_path('model.h5')
      model = load_model(model_path)

  def run(raw_data):
      data = np.asarray(json.loads(raw_data)['data'])
      return model.predict(data)

The external collaborators (the model registry `Model.get_model_path`,
the deserializer `load_model`, the JSON parser `json.loads`, the array
conversion `np.asarray` and the predictor operation `model.predict`)
are opaque: the embedding is parameterized over them via the
`Externals` structure, each as a fallible function (`Except`), mirroring
Python exceptions.  Process-wide state is the single module-level
global `model`, embedded as `ProcState` (with an abstract `rest`
component standing for all other process state, which this code never
touches).  Both hooks are embedded as explicit state transformers
returning the Python result (normal return or raised exception) paired
with the post-state.
-/

/-- Python values produced by `json.loads`: null, booleans, numbers,
strings, lists and string-keyed dicts. -/
inductive Json where
  | null : Json
  | bool (b : Bool) : Json
  | num (q : Rat) : Json
  | str (s : String) : Json
  | arr (elems : List Json) : Json
  | obj (fields : List (String × Json)) : Json


/-- Schema-stage failures of the subscript `json.loads(raw)['data']`:
`keyError` when the parsed value is a dict lacking the key `data`
(Python `KeyError`), `typeError` when the parsed value is not a dict
at all (Python `TypeError`: lists, strings, numbers, booleans and
`None` reject a string subscript). -/
inductive SchemaErr where
  | keyError : SchemaErr
  | typeError : SchemaErr


/-- The exceptions the two hooks can raise, classified by stage.
`modelNotFound` and `loadFailed` are the load-stage conditions of
`init`; `parse`, `schema`, `conversion`, `nameError` and `prediction`
arise in `run` (`nameError` is Python's NameError when the global
`model` was never assigned). -/
inductive ScoreError (RegE LoadE ParseE ConvE PredE : Type) where
  | modelNotFound (e : RegE) : ScoreError RegE LoadE ParseE ConvE PredE
  | loadFailed (e : LoadE) : ScoreError RegE LoadE ParseE ConvE PredE
  | parse (e : ParseE) : ScoreError RegE LoadE ParseE ConvE PredE
  | schema (e : SchemaErr) : ScoreError RegE LoadE ParseE ConvE PredE
  | conversion (e : ConvE) : ScoreError RegE LoadE ParseE ConvE PredE
  | nameError : ScoreError RegE LoadE ParseE ConvE PredE
  | prediction (e : PredE) : ScoreError RegE LoadE ParseE ConvE PredE


/-- True exactly on the load-stage conditions (model could not be
located, or the file could not be deserialized). -/
def ScoreError.isLoadStage {RegE LoadE ParseE ConvE PredE : Type} :
    ScoreError RegE LoadE ParseE ConvE PredE → Bool
  | .modelNotFound _ => true
  | .loadFailed _ => true
  | _ => false

/-- The opaque external collaborators of `score.py`.  `Path` is the
type of local file paths, `P` of deserialized predictor objects, `Arr`
of numeric arrays (`np.ndarray`), `Out` of prediction outputs; the
remaining parameters are the collaborators' failure types. -/
structure Externals (Path P Arr Out RegE LoadE ParseE ConvE PredE : Type) where
  get_model_path : String → Except RegE Path
  load_model : Path → Except LoadE P
  loads : String → Except ParseE Json
  asarray : Json → Except ConvE Arr
  predict : P → Arr → Except PredE Out

/-- Process-wide state owned by the module: the single global `model`
(absent until `init` assigns it) together with an abstract `rest`
component standing for every other piece of process state. -/
structure ProcState (P ρ : Type) where
  model : Option P
  rest : ρ


/-- The string constant `'model.h5'` passed to `Model.get_model_path`. -/
def modelName : String := "model.h5"

variable {Path P Arr Out RegE LoadE ParseE ConvE PredE ρ : Type}

/-- Embedding of `init`: resolve the path of the model named
`modelName` via the registry, deserialize it, and assign the global
`model`.  An exception from either collaborator propagates before the
assignment executes, so the state is returned unchanged on failure. -/
def init (E : Externals Path P Arr Out RegE LoadE ParseE ConvE PredE)
    (s : ProcState P ρ) :
    Except (ScoreError RegE LoadE ParseE ConvE PredE) Unit × ProcState P ρ :=
  match E.get_model_path modelName with
  | .error e => (.error (.modelNotFound e), s)
  | .ok model_path =>
    match E.load_model model_path with
    | .error e => (.error (.loadFailed e), s)
    | .ok m => (.ok (), ⟨some m, s.rest⟩)

/-- Embedding of the subscript `json.loads(raw_data)['data']` applied
to the already-parsed value: a dict yields the value under `data`
(KeyError when absent), any non-dict value raises TypeError. -/
def getData : Json → Except SchemaErr Json
  | .obj fields =>
    match fields.lookup "data" with
    | some v => .ok v
    | none => .error .keyError
  | _ => .error .typeError

/-- Embedding of `run`: parse the raw payload, subscript with `data`,
convert with `asarray`, then look up the global `model` and call its
`predict` — in Python's evaluation order (the name `model` is resolved
only after `data` has been computed).  `run` performs no assignment,
so the state is threaded through unchanged on every path. -/
def run (E : Externals Path P Arr Out RegE LoadE ParseE ConvE PredE)
    (s : ProcState P ρ) (raw_data : String) :
    Except (ScoreError RegE LoadE ParseE ConvE PredE) Out × ProcState P ρ :=
  match E.loads raw_data with
  | .error e => (.error (.parse e), s)
  | .ok j =>
    match getData j with
    | .error se => (.error (.schema se), s)
    | .ok v =>
      match E.asarray v with
      | .error ce => (.error (.conversion ce), s)
      | .ok data =>
        match s.model with
        | none => (.error .nameError, s)
        | some m =>
          match E.predict m data with
          | .error pe => (.error (.prediction pe), s)
          | .ok out => (.ok out, s)

/-! Concrete instantiation of the opaque collaborators, used to
exercise the theorems on closed inputs.  `demoLoads` is a finite JSON
parser fragment faithful to `json.loads` on the listed payloads;
`asarray` is total on them, as `np.asarray` is on well-formed and even
non-numeric nested lists; the predictor is an echo function (and a
rejecting variant mirroring a predictor that refuses a non-numeric
array). -/

/-- Payload `{"data": [[1,2,3]]}` (the spec's golden example). -/
def pGood : String := "\x7b\"data\": [[1,2,3]]\x7d"

/-- Payload `{"data": [[1,2,3]], "x": 5}`: same `data`, one extra field. -/
def pExtra : String := "\x7b\"data\": [[1,2,3]], \"x\": 5\x7d"

/-- Payload `{"other": 1}`: valid JSON object lacking the `data` field. -/
def pNoData : String := "\x7b\"other\": 1\x7d"

/-- Payload `{"data": [["a"]]}`: valid JSON object whose `data` value is
a nested array of strings, not numeric. -/
def pStrings : String := "\x7b\"data\": [[\"a\"]]\x7d"

/-- Parsed `data` value of `pGood` and `pExtra`. -/
def vGood : Json := .arr [.arr [.num 1, .num 2, .num 3]]

/-- Parsed `data` value of `pStrings`. -/
def vStrings : Json := .arr [.arr [.str "a"]]

/-- Finite model of `json.loads`, agreeing with it on the four demo
payloads and failing on everything else. -/
def demoLoads (s : String) : Except Unit Json :=
  if s = pGood then .ok (.obj [("data", vGood)])
  else if s = pExtra then .ok (.obj [("data", vGood), ("x", .num 5)])
  else if s = pNoData then .ok (.obj [("other", .num 1)])
  else if s = pStrings then .ok (.obj [("data", vStrings)])
  else .error ()

/-- Concrete collaborators: a registry knowing only `model.h5`, a
loader knowing only its path (yielding predictor handle `7`), the
finite parser, a total array conversion and an echo predictor. -/
def demoE : Externals String Nat Json Json Unit Unit Unit Unit Unit :=
  ⟨fun n => if n = modelName then .ok "azureml-models/model.h5" else .error (),
   fun p => if p = "azureml-models/model.h5" then .ok 7 else .error (),
   demoLoads,
   fun j => .ok j,
   fun _ a => .ok a⟩

/-- Same collaborators but with a predictor that rejects every array
(as a Keras model does when handed a non-numeric array). -/
def demoRejectE : Externals String Nat Json Json Unit Unit Unit Unit Unit :=
  ⟨demoE.get_model_path, demoE.load_model, demoLoads, fun j => .ok j,
   fun _ _ => .error ()⟩

/-- Collaborators whose registry locates no model at all. -/
def demoBadE : Externals String Nat Json Json Unit Unit Unit Unit Unit :=
  ⟨fun _ => .error (), demoE.load_model, demoLoads, fun j => .ok j,
   fun _ a => .ok a⟩

/-- Fresh process state: the global `model` was never assigned. -/
def s0 : ProcState Nat Nat := ⟨none, 0⟩

/-- Process state after a successful `init` against `demoE`. -/
def sInit : ProcState Nat Nat := ⟨some 7, 0⟩

/-- Every path of `run` returns the process state unchanged: the body
of `run` contains no assignment to any global. -/
theorem run_state_eq (E : Externals Path P Arr Out RegE LoadE ParseE ConvE PredE)
    (s : ProcState P ρ) (raw : String) : (run E s raw).2 = s := by
  cases hl : E.loads raw with
  | error e => simp [run, hl]
  | ok j =>
    cases hd : getData j with
    | error se => simp [run, hl, hd]
    | ok v =>
      cases ha : E.asarray v with
      | error ce => simp [run, hl, hd, ha]
      | ok a =>
        cases hm : s.model with
        | none => simp [run, hl, hd, ha, hm]
        | some m =>
          cases hp : E.predict m a with
          | error pe => simp [run, hl, hd, ha, hm, hp]
          | ok out => simp [run, hl, hd, ha, hm, hp]

/-- C1: for every raw payload that parses to a JSON value from which
the `data` field is extracted and converted, and after successful
initialization (the global `model` holds a predictor), `run` returns
exactly the predictor's output for the converted array, unmodified —
no serialization back to JSON — and leaves the state unchanged. -/
theorem run_returns_prediction
    (E : Externals Path P Arr Out RegE LoadE ParseE ConvE PredE)
    (s : ProcState P ρ) (raw : String) (j v : Json) (a : Arr) (m : P) (o : Out)
    (h1 : E.loads raw = .ok j) (h2 : getData j = .ok v)
    (h3 : E.asarray v = .ok a) (h4 : s.model = some m)
    (h5 : E.predict m a = .ok o) :
    run E s raw = (.ok o, s) := by
  simp [run, h1, h2, h3, h4, h5]

/-- C1 witness: on the golden payload and an initialized state, `run`
against the demo collaborators returns the echo predictor's output. -/
theorem run_returns_prediction_witness :
    run demoE sInit pGood = (.ok vGood, sInit) :=
  run_returns_prediction demoE sInit pGood (Json.obj [("data", vGood)])
    vGood vGood 7 vGood rfl rfl rfl rfl rfl

/-- C2: `init` resolves the path of the fixed string constant
`model.h5` through the registry, deserializes the file at that path,
stores the resulting predictor in the process-wide `model` slot
(touching nothing else), and returns no value (`Unit`). -/
theorem init_resolves_loads_stores
    (E : Externals Path P Arr Out RegE LoadE ParseE ConvE PredE)
    (s : ProcState P ρ) (p : Path) (m : P)
    (h1 : E.get_model_path modelName = .ok p)
    (h2 : E.load_model p = .ok m) :
    modelName = "model.h5" ∧ init E s = (.ok (), ⟨some m, s.rest⟩) := by
  refine ⟨rfl, ?_⟩
  simp [init, h1, h2]

/-- C2 witness: initializing against the demo registry and loader
stores predictor handle `7` and returns unit. -/
theorem init_resolves_loads_stores_witness :
    modelName = "model.h5" ∧ init demoE s0 = (.ok (), ⟨some 7, 0⟩) :=
  init_resolves_loads_stores demoE s0 "azureml-models/model.h5" 7 rfl rfl

/-- C3: for every raw payload on which the JSON parser fails, `run`
raises exactly the parse-stage error and changes nothing.  The
statement is uniform in `E` — in particular in `E.predict` — so the
predictor is never invoked on such inputs: the failure is a
parse-stage failure, not a predictor-stage one. -/
theorem run_invalid_json_parse_error
    (E : Externals Path P Arr Out RegE LoadE ParseE ConvE PredE)
    (s : ProcState P ρ) (raw : String) (e : ParseE)
    (h : E.loads raw = .error e) :
    run E s raw = (.error (.parse e), s) := by
  simp [run, h]

/-- C3 witness: the payload `not json` is rejected at the parse stage. -/
theorem run_invalid_json_parse_error_witness :
    run demoE sInit "not json" = (.error (.parse ()), sInit) :=
  run_invalid_json_parse_error demoE sInit "not json" () rfl

/-- C7: `run` is deterministic across sequential calls: a second call
with the identical raw payload, from the state the first call left
behind, returns exactly the first call's result — no hidden state is
mutated between calls. -/
theorem run_sequential_identical
    (E : Externals Path P Arr Out RegE LoadE ParseE ConvE PredE)
    (s : ProcState P ρ) (raw : String) :
    run E (run E s raw).2 raw = run E s raw := by
  rw [run_state_eq]

/-- C8: every call to `run` leaves the whole process state — the
predictor slot and every other component — unchanged: scoring only
reads the predictor. -/
theorem run_no_side_effects
    (E : Externals Path P Arr Out RegE LoadE ParseE ConvE PredE)
    (s : ProcState P ρ) (raw : String) :
    (run E s raw).2 = s :=
  run_state_eq E s raw

/-- C4 counterexample: the payload `pStrings` is a valid JSON object
whose `data` value `[["a"]]` is not numeric, yet `run` does not fail
with a schema-stage error: against the echo collaborators it succeeds
outright, and against the rejecting predictor it fails at the
prediction stage — so the predictor IS invoked on such inputs.  The
source performs no shape or numeric-type validation of `data`. -/
theorem run_nonnumeric_not_schema_error :
    (run demoE sInit pStrings).1 = .ok vStrings ∧
    (run demoRejectE sInit pStrings).1 = .error (.prediction ()) :=
  ⟨rfl, rfl⟩

/-- C4 (amended): for every payload that parses to valid JSON on which
the `data` subscript fails — the value is an object lacking a `data`
field, or is not an object at all — `run` fails with exactly that
schema-stage error, without invoking the predictor (the statement is
uniform in `E.predict`) and without touching the state.  A `data`
value that is present is NOT schema-checked: it is forwarded to the
conversion and the predictor regardless of shape or element type. -/
theorem run_missing_data_schema_error
    (E : Externals Path P Arr Out RegE LoadE ParseE ConvE PredE)
    (s : ProcState P ρ) (raw : String) (j : Json) (se : SchemaErr)
    (h1 : E.loads raw = .ok j) (h2 : getData j = .error se) :
    run E s raw = (.error (.schema se), s) := by
  simp [run, h1, h2]

/-- C4 witness: the object payload lacking a `data` field fails with
the key-error schema condition. -/
theorem run_missing_data_schema_error_witness :
    run demoE sInit pNoData = (.error (.schema .keyError), sInit) :=
  run_missing_data_schema_error demoE sInit pNoData
    (Json.obj [("other", Json.num 1)]) SchemaErr.keyError rfl rfl

/-- C5: whenever `init` fails, the error is a load-stage condition
(model not located, or file not deserializable) and the process state
is returned exactly as it was — in particular a state with no stored
predictor stays unpopulated: initialization is atomic. -/
theorem init_failure_atomic
    (E : Externals Path P Arr Out RegE LoadE ParseE ConvE PredE)
    (s : ProcState P ρ) (err : ScoreError RegE LoadE ParseE ConvE PredE)
    (h : (init E s).1 = .error err) :
    err.isLoadStage = true ∧ (init E s).2 = s := by
  cases hg : E.get_model_path modelName with
  | error e =>
    simp [init, hg] at h
    subst h
    simp [init, hg, ScoreError.isLoadStage]
  | ok model_path =>
    cases hl : E.load_model model_path with
    | error e =>
      simp [init, hg, hl] at h
      subst h
      simp [init, hg, hl, ScoreError.isLoadStage]
    | ok m =>
      simp [init, hg, hl] at h

/-- C5 witness: against a registry that locates nothing, `init` from
the fresh state fails with a load-stage error and leaves the state
(and its absent predictor) untouched. -/
theorem init_failure_atomic_witness :
    ScoreError.isLoadStage
      (ScoreError.modelNotFound () : ScoreError Unit Unit Unit Unit Unit) = true ∧
    (init demoBadE s0).2 = s0 :=
  init_failure_atomic demoBadE s0 (ScoreError.modelNotFound ()) rfl

/-- C6: for every raw payload, calling `run` while the process-wide
predictor is absent fails with some raised error — it never returns a
value, so no default is silently produced.  (Depending on the payload
the error is the parse, schema or conversion failure, or the
NameError from the unassigned global `model`.) -/
theorem run_uninitialized_always_fails
    (E : Externals Path P Arr Out RegE LoadE ParseE ConvE PredE)
    (s : ProcState P ρ) (raw : String) (h : s.model = none) :
    ∃ err, (run E s raw).1 = .error err := by
  cases hl : E.loads raw with
  | error e => exact ⟨.parse e, by simp [run, hl]⟩
  | ok j =>
    cases hd : getData j with
    | error se => exact ⟨.schema se, by simp [run, hl, hd]⟩
    | ok v =>
      cases ha : E.asarray v with
      | error ce => exact ⟨.conversion ce, by simp [run, hl, hd, ha]⟩
      | ok a => exact ⟨.nameError, by simp [run, hl, hd, ha, h]⟩

/-- C6 witness: the golden payload against the uninitialized fresh
state produces an error (the NameError of the unassigned `model`). -/
theorem run_uninitialized_always_fails_witness :
    ∃ err, (run demoE s0 pGood).1 = .error err :=
  run_uninitialized_always_fails demoE s0 pGood rfl

/-- C9: the result of `run` depends only on the `data` field of the
parsed object and on the process state: two payloads parsing to JSON
objects whose `data` lookups agree score identically, whatever other
fields the objects carry — extra fields are ignored, not rejected. -/
theorem run_depends_only_on_data
    (E : Externals Path P Arr Out RegE LoadE ParseE ConvE PredE)
    (s : ProcState P ρ) (r1 r2 : String) (f1 f2 : List (String × Json))
    (h1 : E.loads r1 = .ok (.obj f1)) (h2 : E.loads r2 = .ok (.obj f2))
    (h3 : f1.lookup "data" = f2.lookup "data") :
    run E s r1 = run E s r2 := by
  simp only [run, h1, h2, getData, h3]

/-- C9 witness: the golden payload and the payload with an extra `x`
field produce identical results (here: identical successful scores). -/
theorem run_depends_only_on_data_witness :
    run demoE sInit pGood = run demoE sInit pExtra :=
  run_depends_only_on_data demoE sInit pGood pExtra
    [("data", vGood)] [("data", vGood), ("x", Json.num 5)] rfl rfl rfl

/-- C10: `init` has no re-invocation guard: called on a state whose
predictor slot is already populated, a successful call simply
reassigns the slot to the newly loaded model — no error, and every
other component of the process state is left untouched. -/
theorem init_reinvocation_replaces
    (E : Externals Path P Arr Out RegE LoadE ParseE ConvE PredE)
    (s : ProcState P ρ) (m0 : P) (p : Path) (m : P)
    (_h0 : s.model = some m0)
    (h1 : E.get_model_path modelName = .ok p)
    (h2 : E.load_model p = .ok m) :
    (init E s).1 = .ok () ∧ (init E s).2.model = some m ∧
      (init E s).2.rest = s.rest := by
  simp [init, h1, h2]

/-- C10 witness: re-initializing a state already holding predictor
`99` succeeds and replaces it with the freshly loaded `7`, keeping the
rest component at `5`. -/
theorem init_reinvocation_replaces_witness :
    (init demoE (⟨some 99, 5⟩ : ProcState Nat Nat)).1 = .ok () ∧
    (init demoE (⟨some 99, 5⟩ : ProcState Nat Nat)).2.model = some 7 ∧
    (init demoE (⟨some 99, 5⟩ : ProcState Nat Nat)).2.rest = 5 :=
  init_reinvocation_replaces demoE ⟨some 99, 5⟩ 99 "azureml-models/model.h5" 7
    rfl rfl rfl
